import Mathlib

/-!
Verification of the transfer-session lifecycle and batch ownership-transfer
orchestration of `google-drive-ownership-transfer-node`.

The embedding translates the Node.js source into pure Lean functions:

* `src/database/models/User.js` and `FileTransfer.js` (which also contains the
  `TransferSession` model) become query/update functions over a `DB` record of
  row lists; SQL `UPDATE ... WHERE id = ?` becomes a `List.map` guarded on the
  row id, `SELECT ... WHERE` becomes `List.find?` / `List.filter`.
* `src/controllers/transferController.js` handlers become functions
  `DB → Except ErrResp α × DB`.  HTTP responses are modelled as the
  `(statusCode, message)` pairs the handlers produce.

Two defects of the source determine most of the embedded behavior, and the
embedding reproduces them rather than the behavior the spec intends:

* In the six token-guarded handlers (`getTransferSession`,
  `acceptTransferSession`, `startTransfer`, `getTransferProgress`,
  `cancelTransferSession`, `rejectTransferSession`) the code destructures
  `session_token` from the query but then evaluates the identifier
  `sessionToken`, which is declared nowhere in their scope (the only
  `sessionToken` is a `const` local to `createTransferSession`; class bodies
  are strict-mode code, and reading an undeclared identifier throws in sloppy
  mode too).  The lookup line throws `ReferenceError: sessionToken is not
  defined` before any database access; the handler's catch-all converts it
  into a 500 response.  Every call to these handlers therefore returns that
  constant 500 error and leaves the store untouched; each is embedded as that
  constant function, with its dead downstream logic described in its doc
  comment.
* `GoogleDriveService.transferFiles` calls `fileTransfer.updateStatus(...)` on
  the rows it is given; the rows returned by `FileTransfer.findBySessionId`
  are plain object literals with no methods, so the first loop iteration
  throws `TypeError: fileTransfer.updateStatus is not a function`.  The inner
  catch's own `fileTransfer.updateStatus(...)` call throws the same TypeError
  again, escaping the loop for good; the outer catch rethrows.  With a
  nonempty row list the function therefore rejects without updating any row
  or calling the Drive API at all; with an empty list the loop body never runs
  and it returns normally.  It is embedded as exactly that.

`createTransferSession` is unaffected: it uses its locally declared
`sessionToken` and never calls into the batch.  The model-layer methods
(`findByToken`, both `updateStatus` methods, `findBySessionId`, the `User`
lookups) are themselves correct and are embedded faithfully; the controller
and batch paths above simply never reach most of them.

Time: timestamps are `Nat`; the SQL filter `expires_at > datetime('now')`
becomes `now < expiresAt` with `now` threaded as a parameter.
-/

namespace DriveTransfer

/-- Session statuses, from the `transfer_sessions` schema CHECK constraint. -/
inductive SessionStatus
  | pending
  | authenticated
  | fileSelected
  | transferring
  | completed
  | failed
  | cancelled
deriving DecidableEq, Repr

/-- File-transfer statuses, from the `file_transfers` schema CHECK constraint. -/
inductive FileStatus
  | pending
  | transferring
  | completed
  | failed
  | skipped
deriving DecidableEq, Repr

/-- A row of the `users` table (the fields the transfer flow reads). -/
structure UserRow where
  id : String
  email : String
  accessToken : String
  refreshToken : String
deriving DecidableEq, Repr

/-- A row of the `transfer_sessions` table (the fields the transfer flow reads). -/
structure SessionRow where
  id : String
  sessionToken : String
  senderUserId : String
  receiverUserId : String
  status : SessionStatus
  expiresAt : Nat
deriving DecidableEq, Repr

/-- A row of the `file_transfers` table. -/
structure FileRow where
  id : String
  sessionId : String
  googleFileId : String
  fileName : String
  fileType : String
  fileSize : Nat
  originalOwnerId : String
  newOwnerId : String
  status : FileStatus
  transferStartedAt : Option Nat
  transferCompletedAt : Option Nat
  errorMessage : Option String
  retryCount : Nat
deriving DecidableEq, Repr

/-- The SQLite database, as lists of rows in insertion (creation) order. -/
structure DB where
  users : List UserRow
  sessions : List SessionRow
  fileTransfers : List FileRow
deriving DecidableEq, Repr

/-- An error response: HTTP status code plus the error string the handler sends. -/
structure ErrResp where
  code : Nat
  msg : String
deriving DecidableEq, Repr

/-- Model of `User.findByEmail`: `SELECT * FROM users WHERE email = ?` (first row
or null). -/
def User.findByEmail (db : DB) (email : String) : Option UserRow :=
  db.users.find? (fun u => u.email = email)

/-- Model of `User.findById`: `SELECT * FROM users WHERE id = ?` (first row or
null).  Called by the batch loop in the source, but only after the
`fileTransfer.updateStatus` TypeError, so never reached from `transferFiles`. -/
def User.findById (db : DB) (id : String) : Option UserRow :=
  db.users.find? (fun u => u.id = id)

/-- Model of `TransferSession.findByToken`:
`SELECT * FROM transfer_sessions WHERE session_token = ? AND expires_at > datetime('now')`.
The fail-closed expiry filter is part of the query itself.  The method is
correct, but every controller call site evaluates the undeclared identifier
`sessionToken` while building the argument and throws before invoking it. -/
def TransferSession.findByToken (db : DB) (sessionToken : String) (now : Nat) :
    Option SessionRow :=
  db.sessions.find? (fun s => s.sessionToken = sessionToken && decide (now < s.expiresAt))

/-- Model of `TransferSession.updateStatus`:
`UPDATE transfer_sessions SET status = ? WHERE id = ?`. -/
def TransferSession.updateStatus (db : DB) (id : String) (status : SessionStatus) : DB :=
  { db with
    sessions := db.sessions.map (fun s => if s.id = id then { s with status := status } else s) }

/-- Model of `FileTransfer.findBySessionId`:
`SELECT * FROM file_transfers WHERE session_id = ? ORDER BY created_at ASC`;
rows are kept in creation order, so the filter preserves that order.  The
returned rows are plain objects — in particular they carry no `updateStatus`
method, which is what crashes the batch loop. -/
def FileTransfer.findBySessionId (db : DB) (sessionId : String) : List FileRow :=
  db.fileTransfers.filter (fun f => f.sessionId = sessionId)

/-- The per-row effect of the static `FileTransfer.updateStatus`, one branch per
status as in the source: `transferring` stamps `transfer_started_at`,
`completed` stamps `transfer_completed_at`, `failed` stores the error text and
increments `retry_count`, anything else sets only the status column. -/
def FileRow.applyStatus (now : Nat) (status : FileStatus) (errorMessage : Option String)
    (f : FileRow) : FileRow :=
  match status with
  | FileStatus.transferring => { f with status := status, transferStartedAt := some now }
  | FileStatus.completed => { f with status := status, transferCompletedAt := some now }
  | FileStatus.failed =>
      { f with status := status, errorMessage := errorMessage,
               retryCount := f.retryCount + 1 }
  | _ => { f with status := status }

/-- Model of the static `FileTransfer.updateStatus(id, status, errorMessage)`:
`UPDATE file_transfers SET ... WHERE id = ?`.  The method itself is correct, but
the batch loop invokes `updateStatus` on the plain row objects instead of on the
model class, so no code path of the transfer flow ever executes it. -/
def FileTransfer.updateStatus (db : DB) (id : String) (status : FileStatus)
    (errorMessage : Option String) (now : Nat) : DB :=
  { db with
    fileTransfers := db.fileTransfers.map
      (fun f => if f.id = id then FileRow.applyStatus now status errorMessage f else f) }

/-- Model of `GoogleDriveService.transferFiles(sessionId, fileTransfers)`.  The
first iteration of the `for (const fileTransfer of fileTransfers)` loop begins
with `await fileTransfer.updateStatus(fileTransfer.id, 'transferring')`; the row
objects from `findBySessionId` have no `updateStatus` property, so this throws
`TypeError: fileTransfer.updateStatus is not a function`.  The inner catch
handles it but then itself calls `fileTransfer.updateStatus(..., 'failed', ...)`,
throwing the same TypeError out of the loop; the outer catch logs and rethrows.
Hence on a nonempty row list the function rejects with the TypeError, having
updated no row and made no Drive API call; on an empty list the loop body never
runs and it resolves normally.  The store passes through untouched either way. -/
def GoogleDriveService.transferFiles (fileTransfers : List FileRow) (db : DB) :
    Except String Unit × DB :=
  match fileTransfers with
  | [] => (Except.ok (), db)
  | _ :: _ => (Except.error "TypeError: fileTransfer.updateStatus is not a function", db)

/-- A file entry of the request body's `files` array (the fields the route
validates and the controller persists). -/
structure FileInput where
  file_id : String
  file_name : String
  file_type : String
  file_size : Nat
deriving DecidableEq, Repr

/-- The validation chain of `router.post('/session')` (`routes/transfer.js`):
`receiver_email` must satisfy the validator library's `isEmail` (an external
collaborator, passed as a predicate), `files` must be an array with at least one
element, and every element needs a non-empty `file_id` and `file_name`.  On
failure the middleware responds 400 before the controller runs. -/
def validateCreateSession (isEmail : String → Bool) (receiver_email : String)
    (files : List FileInput) : Bool :=
  isEmail receiver_email && decide (1 ≤ files.length) &&
    files.all (fun f => !(f.file_id = "") && !(f.file_name = ""))

/-- Model of `TransferController.createTransferSession`, composed with the
route's validation middleware.  This handler declares its own local
`sessionToken` and is unaffected by the identifier defect of the other handlers.
The fresh uuids (session id, session token, one id per file row) are parameters,
as `uuidv4` is an external collaborator.  On success it inserts one `pending`
session row (24h expiry) and then one `pending` file row per manifest entry, in
manifest order; `retry_count` takes the schema default 0. -/
def createTransferSession (isEmail : String → Bool) (now : Nat)
    (sessionId sessionToken : String) (fileRowIds : List String)
    (senderUserId : String) (receiver_email : String) (files : List FileInput)
    (db : DB) : Except ErrResp (String × String) × DB :=
  if !(validateCreateSession isEmail receiver_email files) then
    (Except.error ⟨400, "Validation failed"⟩, db)
  else
    match User.findByEmail db receiver_email with
    | none =>
        (Except.error ⟨404, "Receiver not found. They need to authenticate first."⟩, db)
    | some receiverUser =>
        let session : SessionRow :=
          { id := sessionId
            sessionToken := sessionToken
            senderUserId := senderUserId
            receiverUserId := receiverUser.id
            status := SessionStatus.pending
            expiresAt := now + 24 * 60 * 60 * 1000 }
        let newRows : List FileRow :=
          (files.zip fileRowIds).map (fun p =>
            { id := p.2
              sessionId := sessionId
              googleFileId := p.1.file_id
              fileName := p.1.file_name
              fileType := p.1.file_type
              fileSize := p.1.file_size
              originalOwnerId := senderUserId
              newOwnerId := receiverUser.id
              status := FileStatus.pending
              transferStartedAt := none
              transferCompletedAt := none
              errorMessage := none
              retryCount := 0 })
        (Except.ok (sessionId, sessionToken),
         { db with
           sessions := db.sessions ++ [session],
           fileTransfers := db.fileTransfers ++ newRows })

/-- Model of `TransferController.acceptTransferSession`.  The handler
destructures `session_token` from the query but the lookup line reads the
undeclared identifier `sessionToken` and throws `ReferenceError: sessionToken is
not defined` before any database access; the catch-all answers 500
`"Failed to accept transfer session"`.  Every call produces that response with
the store untouched.  The receiver check, the `pending` check and the
`TransferSession.updateStatus(sessionId, 'authenticated')` write further down
are dead code. -/
def acceptTransferSession (sessionId session_token receiverUserId : String)
    (db : DB) : Except ErrResp Unit × DB :=
  (Except.error ⟨500, "Failed to accept transfer session"⟩, db)

/-- Model of `TransferController.startTransfer`.  Same defect: the lookup line
throws `ReferenceError` at the undeclared `sessionToken` before anything else
runs, and the catch-all answers 500 `"Failed to start transfer"`.  The status
precondition, the transition to `transferring`, the row fetch, the `setImmediate`
batch launch and the file-count response are dead code: the batch is never
started by any call. -/
def startTransfer (sessionId session_token : String) (db : DB) :
    Except ErrResp Nat × DB :=
  (Except.error ⟨500, "Failed to start transfer"⟩, db)

/-- Model of the `setImmediate` closure inside `startTransfer` — dead code,
since the handler throws before reaching it, embedded for reference: it awaits
`GoogleDriveService.transferFiles` over the session's rows and marks the session
`completed`, and its catch marks the session `failed`.  Because `transferFiles`
rejects on every nonempty row list (the TypeError above), the closure, were it
ever reached, would take the catch branch and write `failed`, with every file
row left exactly as it was. -/
def startTransferBackground (sessionId : String) (db : DB) : DB :=
  match GoogleDriveService.transferFiles (FileTransfer.findBySessionId db sessionId) db with
  | (Except.ok _, db2) => TransferSession.updateStatus db2 sessionId SessionStatus.completed
  | (Except.error _, db2) => TransferSession.updateStatus db2 sessionId SessionStatus.failed

/-- One entry of the `files` array of the progress response — the shape the
source would build; no call ever reaches it. -/
structure FileView where
  fileName : String
  status : FileStatus
  errorMessage : Option String
deriving DecidableEq, Repr

/-- The `progress` object of `getTransferProgress`'s success response — the
shape the source would build; no call ever reaches it. -/
structure Progress where
  total : Nat
  completed : Nat
  failed : Nat
  pending : Nat
  transferring : Nat
  files : List FileView
deriving DecidableEq, Repr

/-- Model of `TransferController.getTransferProgress`.  Same defect: the lookup
line throws `ReferenceError` at the undeclared `sessionToken`, and the catch-all
answers 500 `"Failed to get transfer progress"`.  The row fetch, the four
filter counts and the per-file list are dead code; no call ever returns them.
The handler performs no write on any path. -/
def getTransferProgress (sessionId session_token : String) (db : DB) :
    Except ErrResp (SessionStatus × Progress) × DB :=
  (Except.error ⟨500, "Failed to get transfer progress"⟩, db)

/-- Model of `TransferController.cancelTransferSession`.  Same defect: the
lookup line throws `ReferenceError` at the undeclared `sessionToken`, and the
catch-all answers 500 `"Failed to cancel transfer session"`.  The
sender-or-receiver membership check and the
`TransferSession.updateStatus(sessionId, 'cancelled')` write are dead code; no
call ever cancels anything. -/
def cancelTransferSession (sessionId session_token userId : String)
    (db : DB) : Except ErrResp Unit × DB :=
  (Except.error ⟨500, "Failed to cancel transfer session"⟩, db)

/-- Model of `TransferController.rejectTransferSession`.  Same defect: the
lookup line throws `ReferenceError` at the undeclared `sessionToken`, and the
catch-all answers 500 `"Failed to reject transfer session"`.  The receiver
check and the `cancelled` write are dead code. -/
def rejectTransferSession (sessionId session_token receiverUserId : String)
    (db : DB) : Except ErrResp Unit × DB :=
  (Except.error ⟨500, "Failed to reject transfer session"⟩, db)

/-- Look up a session row by id (first match, as `queryOne`). -/
def sessionById (db : DB) (id : String) : Option SessionRow :=
  db.sessions.find? (fun s => s.id = id)

/-- Look up a file row by id (first match, as `queryOne`). -/
def rowById (db : DB) (id : String) : Option FileRow :=
  db.fileTransfers.find? (fun f => f.id = id)

/-- A freshly created file row of session `S1` (status `pending`, no error,
`retry_count` at its schema default 0). -/
def batchRow (i g : String) : FileRow :=
  ⟨i, "S1", g, "doc", "text", 10, "alice", "bob", FileStatus.pending,
   none, none, none, 0⟩

/-- A concrete store: sender `alice` and receiver `bob` with stored tokens, one
authenticated session `S1` (token `T1`), and a 3-file manifest of fresh pending
rows. -/
def batchDb : DB :=
  ⟨[⟨"alice", "alice@example.com", "atok", "artok"⟩,
    ⟨"bob", "bob@example.com", "btok", "brtok"⟩],
   [⟨"S1", "T1", "alice", "bob", SessionStatus.authenticated, 100⟩],
   [batchRow "F1" "G1", batchRow "F2" "G2", batchRow "F3" "G3"]⟩

/-- Decidable equality of handler results, for evaluating concrete calls. -/
instance {ε α : Type} [DecidableEq ε] [DecidableEq α] : DecidableEq (Except ε α) :=
  fun a b =>
    match a, b with
    | Except.ok x, Except.ok y =>
        if h : x = y then isTrue (by rw [h]) else isFalse (fun hc => h (by injection hc))
    | Except.error e, Except.error f =>
        if h : e = f then isTrue (by rw [h]) else isFalse (fun hc => h (by injection hc))
    | Except.ok _, Except.error _ => isFalse (fun hc => Except.noConfusion hc)
    | Except.error _, Except.ok _ => isFalse (fun hc => Except.noConfusion hc)

/-! ### Claim theorems -/

/-- Lemma: `find?` skips a prefix in which nothing matches. -/
theorem find?_append_of_none {α : Type} (p : α → Bool) {l₁ : List α}
    (h : l₁.find? p = none) (l₂ : List α) :
    (l₁ ++ l₂).find? p = l₂.find? p := by
  induction l₁ with
  | nil => rfl
  | cons a t ih =>
      rw [List.cons_append]
      cases hpa : p a
      · rw [List.find?_cons_of_neg _ (by simp [hpa])] at h
        rw [List.find?_cons_of_neg _ (by simp [hpa])]
        exact ih h
      · rw [List.find?_cons_of_pos _ hpa] at h
        cases h

/-- C1 — the batch never isolates anything because it never runs: on every
nonempty manifest `transferFiles` rejects with the TypeError thrown by the very
first `fileTransfer.updateStatus` call (only the empty list resolves), the store
passes through unchanged, and in particular the 3-file manifest of `batchDb`
leaves all three rows `pending` with `retryCount` 0 and no error text — the
claimed completed/failed(`retryCount = 1`)/completed outcomes never occur. -/
theorem c1_batch_crash :
    (∀ (ft : FileRow) (rest : List FileRow) (db : DB),
      GoogleDriveService.transferFiles (ft :: rest) db =
        (Except.error "TypeError: fileTransfer.updateStatus is not a function", db)) ∧
    (∀ db : DB, GoogleDriveService.transferFiles [] db = (Except.ok (), db)) ∧
    GoogleDriveService.transferFiles
        [batchRow "F1" "G1", batchRow "F2" "G2", batchRow "F3" "G3"] batchDb =
      (Except.error "TypeError: fileTransfer.updateStatus is not a function",
       batchDb) ∧
    (rowById batchDb "F1").map FileRow.status = some FileStatus.pending ∧
    (rowById batchDb "F2").map FileRow.status = some FileStatus.pending ∧
    (rowById batchDb "F2").map FileRow.retryCount = some 0 ∧
    (rowById batchDb "F2").map FileRow.errorMessage = some none ∧
    (rowById batchDb "F3").map FileRow.status = some FileStatus.pending :=
  ⟨fun _ _ _ => rfl, fun _ => rfl, rfl, by decide, by decide, by decide, by decide,
   by decide⟩

/-- Counterexample to C2 as stated: a user cancel of a `pending` session — an
edge the claim's state machine allows, by either party — does not reach
`cancelled` at all: the call answers the 500 internal error (not
`InvalidStateTransition`, not success) and the session stays `pending`, so
`cancelled` is unreachable from `pending` by user action, contrary to the
claimed edge set. -/
theorem c2_counterexample :
    (sessionById ⟨[], [⟨"S1", "T1", "alice", "bob", SessionStatus.pending, 100⟩], []⟩
        "S1").map SessionRow.status = some SessionStatus.pending ∧
    cancelTransferSession "S1" "T1" "alice"
        ⟨[], [⟨"S1", "T1", "alice", "bob", SessionStatus.pending, 100⟩], []⟩ =
      (Except.error ⟨500, "Failed to cancel transfer session"⟩,
       ⟨[], [⟨"S1", "T1", "alice", "bob", SessionStatus.pending, 100⟩], []⟩) ∧
    (sessionById
        (cancelTransferSession "S1" "T1" "alice"
          ⟨[], [⟨"S1", "T1", "alice", "bob", SessionStatus.pending, 100⟩], []⟩).2
        "S1").map SessionRow.status = some SessionStatus.pending := by
  decide

/-- C2 amended — after creation a session's status never changes at all: accept,
start, cancel and reject each fail on every call with their constant 500
internal-error response (the ReferenceError at the undeclared `sessionToken`,
converted by the handler's catch-all) and return the store untouched; no
transition — along the spec's edges or otherwise — is ever performed, and no
`InvalidStateTransition` response is ever produced. -/
theorem c2_state_machine_amended (sessionId tok u : String) (db : DB) :
    acceptTransferSession sessionId tok u db =
      (Except.error ⟨500, "Failed to accept transfer session"⟩, db) ∧
    startTransfer sessionId tok db =
      (Except.error ⟨500, "Failed to start transfer"⟩, db) ∧
    cancelTransferSession sessionId tok u db =
      (Except.error ⟨500, "Failed to cancel transfer session"⟩, db) ∧
    rejectTransferSession sessionId tok u db =
      (Except.error ⟨500, "Failed to reject transfer session"⟩, db) :=
  ⟨rfl, rfl, rfl, rfl⟩

/-- C3 — the batch's terminal outcome never occurs: startTransfer answers 500 on
`batchDb`'s authenticated session without transitioning it or launching the
batch, and the dead `setImmediate` closure, were it reached, would catch
`transferFiles`' TypeError and write `failed` — not `completed` — with the file
table unchanged and every row still `pending`. -/
theorem c3_no_batch_completion :
    startTransfer "S1" "T1" batchDb =
      (Except.error ⟨500, "Failed to start transfer"⟩, batchDb) ∧
    (sessionById (startTransfer "S1" "T1" batchDb).2 "S1").map SessionRow.status =
      some SessionStatus.authenticated ∧
    (startTransferBackground "S1" batchDb).fileTransfers = batchDb.fileTransfers ∧
    (sessionById (startTransferBackground "S1" batchDb) "S1").map SessionRow.status =
      some SessionStatus.failed ∧
    (rowById (startTransferBackground "S1" batchDb) "F1").map FileRow.status =
      some FileStatus.pending ∧
    (rowById (startTransferBackground "S1" batchDb) "F2").map FileRow.status =
      some FileStatus.pending ∧
    (rowById (startTransferBackground "S1" batchDb) "F3").map FileRow.status =
      some FileStatus.pending := by
  refine ⟨rfl, by decide, rfl, by decide, by decide, by decide, by decide⟩

/-- C4 — startTransfer enforces nothing and returns nothing of the claimed
contract: every call, whatever the session's state (pending with the accept step
skipped included), answers the constant 500 internal error with the store
unchanged — never the `InvalidStateTransition` response, never a transition to
`transferring`, never a file count. -/
theorem c4_startTransfer_always_500 (sessionId tok : String) (db : DB) :
    startTransfer sessionId tok db =
      (Except.error ⟨500, "Failed to start transfer"⟩, db) := rfl

/-- C5 — createSession validation and atomicity: an empty file list fails the
route's validation (HTTP 400, the design's `InvalidManifest`) and persists
nothing; a receiver email no stored user matches fails with the
receiver-not-found response and persists nothing; on success the call returns
the fresh ids and appends exactly one `pending` session row carrying the fresh
token plus one `pending` FileTransfer row per manifest entry (given fresh ids:
one uuid per entry and no pre-existing rows under the new session's id). -/
theorem c5_createSession_validation (isEmail : String → Bool) (now : Nat)
    (sessionId sessionToken : String) (fileRowIds : List String)
    (senderUserId receiver_email : String) (files : List FileInput) (db : DB) :
    (files = [] →
      createTransferSession isEmail now sessionId sessionToken fileRowIds
          senderUserId receiver_email files db =
        (Except.error ⟨400, "Validation failed"⟩, db)) ∧
    (validateCreateSession isEmail receiver_email files = true →
      User.findByEmail db receiver_email = none →
      createTransferSession isEmail now sessionId sessionToken fileRowIds
          senderUserId receiver_email files db =
        (Except.error ⟨404, "Receiver not found. They need to authenticate first."⟩,
         db)) ∧
    (∀ r, validateCreateSession isEmail receiver_email files = true →
      User.findByEmail db receiver_email = some r →
      (createTransferSession isEmail now sessionId sessionToken fileRowIds
          senderUserId receiver_email files db).1 =
        Except.ok (sessionId, sessionToken) ∧
      ((∀ s ∈ db.sessions, s.id ≠ sessionId) →
        sessionById (createTransferSession isEmail now sessionId sessionToken
            fileRowIds senderUserId receiver_email files db).2 sessionId =
          some ⟨sessionId, sessionToken, senderUserId, r.id, SessionStatus.pending,
            now + 24 * 60 * 60 * 1000⟩) ∧
      (fileRowIds.length = files.length →
        (∀ f ∈ db.fileTransfers, f.sessionId ≠ sessionId) →
        (FileTransfer.findBySessionId (createTransferSession isEmail now sessionId
            sessionToken fileRowIds senderUserId receiver_email files db).2
            sessionId).length = files.length ∧
        ∀ f ∈ FileTransfer.findBySessionId (createTransferSession isEmail now
            sessionId sessionToken fileRowIds senderUserId receiver_email files
            db).2 sessionId,
          f.status = FileStatus.pending)) := by
  refine ⟨fun h => ?_, fun hv hr => ?_, fun r hv hr => ⟨?_, fun hfreshS => ?_,
    fun hlen hfreshF => ⟨?_, ?_⟩⟩⟩
  · subst h
    simp [createTransferSession, validateCreateSession]
  · simp [createTransferSession, hv, hr]
  · simp [createTransferSession, hv, hr]
  · have hold : db.sessions.find? (fun s => s.id = sessionId) = none :=
      List.find?_eq_none.mpr (fun s hs => by simp [hfreshS s hs])
    simp only [createTransferSession, hv, Bool.not_true, hr]
    unfold sessionById
    simp only [Bool.false_eq_true, if_false]
    rw [find?_append_of_none _ hold]
    simp
  · have holdF : db.fileTransfers.filter (fun f => f.sessionId = sessionId) = [] :=
      List.filter_eq_nil_iff.mpr (fun f hf => by simp [hfreshF f hf])
    simp only [createTransferSession, hv, Bool.not_true, hr]
    unfold FileTransfer.findBySessionId
    simp only [Bool.false_eq_true, if_false, List.filter_append, holdF,
      List.nil_append]
    rw [List.filter_eq_self.mpr (fun f hf => ?_), List.length_map, List.length_zip,
      hlen, Nat.min_self]
    rcases List.mem_map.mp hf with ⟨p, _, hp⟩
    rw [← hp]
    simp
  · intro f hf
    have holdF : db.fileTransfers.filter (fun f => f.sessionId = sessionId) = [] :=
      List.filter_eq_nil_iff.mpr (fun g hg => by simp [hfreshF g hg])
    simp only [createTransferSession, hv, Bool.not_true, hr] at hf
    unfold FileTransfer.findBySessionId at hf
    simp only [Bool.false_eq_true, if_false, List.filter_append, holdF,
      List.nil_append] at hf
    rcases List.mem_map.mp (List.mem_of_mem_filter hf) with ⟨p, _, hp⟩
    rw [← hp]

/-- Witness for C5: one stored receiver `bob`, a 1-entry manifest with one fresh
row id: the call succeeds and persists one pending FileTransfer record. -/
theorem c5_createSession_validation_witness :
    validateCreateSession (fun _ => true) "bob@x.com" [⟨"G1", "doc", "text", 10⟩] =
      true ∧
    User.findByEmail ⟨[⟨"bob", "bob@x.com", "bt", "brt"⟩], [], []⟩ "bob@x.com" =
      some ⟨"bob", "bob@x.com", "bt", "brt"⟩ ∧
    (createTransferSession (fun _ => true) 0 "S1" "T1" ["F1"] "alice" "bob@x.com"
        [⟨"G1", "doc", "text", 10⟩]
        ⟨[⟨"bob", "bob@x.com", "bt", "brt"⟩], [], []⟩).1 =
      Except.ok ("S1", "T1") ∧
    (FileTransfer.findBySessionId
        (createTransferSession (fun _ => true) 0 "S1" "T1" ["F1"] "alice"
          "bob@x.com" [⟨"G1", "doc", "text", 10⟩]
          ⟨[⟨"bob", "bob@x.com", "bt", "brt"⟩], [], []⟩).2 "S1").length = 1 :=
  ⟨rfl, by decide,
   ((c5_createSession_validation (fun _ => true) 0 "S1" "T1" ["F1"] "alice"
        "bob@x.com" [⟨"G1", "doc", "text", 10⟩]
        ⟨[⟨"bob", "bob@x.com", "bt", "brt"⟩], [], []⟩).2.2
      ⟨"bob", "bob@x.com", "bt", "brt"⟩ rfl (by decide)).1,
   (((c5_createSession_validation (fun _ => true) 0 "S1" "T1" ["F1"] "alice"
        "bob@x.com" [⟨"G1", "doc", "text", 10⟩]
        ⟨[⟨"bob", "bob@x.com", "bt", "brt"⟩], [], []⟩).2.2
      ⟨"bob", "bob@x.com", "bt", "brt"⟩ rfl (by decide)).2.2 rfl
      (by decide)).1⟩

/-- C6 — acceptSession performs none of its claimed checks: every call, by the
receiver or anyone else, in `pending` or any other state, answers the constant
500 internal error with the store unchanged — never the `Unauthorized`
response, never `InvalidStateTransition`, and no session ever becomes
`authenticated`. -/
theorem c6_accept_always_500 (sessionId tok callerId : String) (db : DB) :
    acceptTransferSession sessionId tok callerId db =
      (Except.error ⟨500, "Failed to accept transfer session"⟩, db) := rfl

/-- Counterexample to C7 as stated: on the same pending session the receiver's
reject and the receiver's cancel return different results (the two constant 500
bodies differ), and neither transitions the session to `cancelled` — it stays
`pending` — refuting both the claimed result equality and the claimed
transition. -/
theorem c7_counterexample :
    (rejectTransferSession "S1" "T1" "bob"
        ⟨[], [⟨"S1", "T1", "alice", "bob", SessionStatus.pending, 100⟩], []⟩).1 =
      Except.error ⟨500, "Failed to reject transfer session"⟩ ∧
    (cancelTransferSession "S1" "T1" "bob"
        ⟨[], [⟨"S1", "T1", "alice", "bob", SessionStatus.pending, 100⟩], []⟩).1 =
      Except.error ⟨500, "Failed to cancel transfer session"⟩ ∧
    rejectTransferSession "S1" "T1" "bob"
        ⟨[], [⟨"S1", "T1", "alice", "bob", SessionStatus.pending, 100⟩], []⟩ ≠
      cancelTransferSession "S1" "T1" "bob"
        ⟨[], [⟨"S1", "T1", "alice", "bob", SessionStatus.pending, 100⟩], []⟩ ∧
    (sessionById
        (cancelTransferSession "S1" "T1" "bob"
          ⟨[], [⟨"S1", "T1", "alice", "bob", SessionStatus.pending, 100⟩], []⟩).2
        "S1").map SessionRow.status = some SessionStatus.pending := by
  decide

/-- C7 amended — reject and cancel are equivalent in effect but not in result:
for every caller, token and store both fail unconditionally with a 500
internal-error response (the ReferenceError at the undeclared `sessionToken`)
and leave the store identical and untouched; neither accepts any caller, and
neither ever transitions a session to `cancelled`.  Their results differ only in
the constant error string of the 500 body. -/
theorem c7_reject_cancel_amended (sessionId tok u : String) (db : DB) :
    rejectTransferSession sessionId tok u db =
      (Except.error ⟨500, "Failed to reject transfer session"⟩, db) ∧
    cancelTransferSession sessionId tok u db =
      (Except.error ⟨500, "Failed to cancel transfer session"⟩, db) ∧
    (rejectTransferSession sessionId tok u db).2 =
      (cancelTransferSession sessionId tok u db).2 :=
  ⟨rfl, rfl, rfl⟩

/-- C8 — getProgress never returns the counts the claim constrains: every call
answers the constant 500 internal error (the ReferenceError at the undeclared
`sessionToken`, thrown before any row is read), with the store passed through
untouched — the no-mutation half of the claim is the only part the program
exhibits. -/
theorem c8_progress_always_500 (sessionId tok : String) (db : DB) :
    getTransferProgress sessionId tok db =
      (Except.error ⟨500, "Failed to get transfer progress"⟩, db) := rfl

/-- Counterexample to C9 as stated: with two sessions — `SA` (token `TA`,
receiver `bob`, `pending`) and `SB` (`completed`) — the accept call that names
`SB` in the path and carries `SA`'s token mutates nothing at all: it answers
500, the store is returned unchanged, and `SB` is still `completed`; there is no
call in which "the session whose status is mutated" exists, because no status is
ever mutated. -/
theorem c9_counterexample :
    (acceptTransferSession "SB" "TA" "bob"
        ⟨[], [⟨"SA", "TA", "alice", "bob", SessionStatus.pending, 100⟩,
              ⟨"SB", "TB", "carol", "dan", SessionStatus.completed, 100⟩], []⟩).1 =
      Except.error ⟨500, "Failed to accept transfer session"⟩ ∧
    (acceptTransferSession "SB" "TA" "bob"
        ⟨[], [⟨"SA", "TA", "alice", "bob", SessionStatus.pending, 100⟩,
              ⟨"SB", "TB", "carol", "dan", SessionStatus.completed, 100⟩], []⟩).2 =
      ⟨[], [⟨"SA", "TA", "alice", "bob", SessionStatus.pending, 100⟩,
            ⟨"SB", "TB", "carol", "dan", SessionStatus.completed, 100⟩], []⟩ ∧
    (sessionById
        (acceptTransferSession "SB" "TA" "bob"
          ⟨[], [⟨"SA", "TA", "alice", "bob", SessionStatus.pending, 100⟩,
                ⟨"SB", "TB", "carol", "dan", SessionStatus.completed, 100⟩],
           []⟩).2 "SB").map SessionRow.status = some SessionStatus.completed := by
  decide

/-- C9 amended — the handlers' text does route the check through the
`session_token` query parameter and the update through the separate `sessionId`
path parameter with no comparison, but that logic is unreachable: even in a call
whose two parameters demonstrably name different sessions (the token resolves to
`s` and `s.id ≠ sessionId`), accept, start, cancel and reject each answer their
constant 500 error and return the store untouched — neither the token's session
nor the path's session is ever checked or mutated. -/
theorem c9_mismatch_unreachable (now : Nat) (sessionId tok u : String) (db : DB)
    (s : SessionRow) (hs : TransferSession.findByToken db tok now = some s)
    (hdiff : s.id ≠ sessionId) :
    acceptTransferSession sessionId tok u db =
      (Except.error ⟨500, "Failed to accept transfer session"⟩, db) ∧
    startTransfer sessionId tok db =
      (Except.error ⟨500, "Failed to start transfer"⟩, db) ∧
    cancelTransferSession sessionId tok u db =
      (Except.error ⟨500, "Failed to cancel transfer session"⟩, db) ∧
    rejectTransferSession sessionId tok u db =
      (Except.error ⟨500, "Failed to reject transfer session"⟩, db) :=
  ⟨rfl, rfl, rfl, rfl⟩

/-- Witness for the amended C9: the two-session store of the counterexample
setting, with `SA`'s token and `SB`'s id demonstrably naming different
sessions. -/
theorem c9_mismatch_unreachable_witness :
    TransferSession.findByToken
        ⟨[], [⟨"SA", "TA", "alice", "bob", SessionStatus.pending, 100⟩,
              ⟨"SB", "TB", "carol", "dan", SessionStatus.completed, 100⟩], []⟩
        "TA" 0 =
      some ⟨"SA", "TA", "alice", "bob", SessionStatus.pending, 100⟩ ∧
    (⟨"SA", "TA", "alice", "bob", SessionStatus.pending, 100⟩ : SessionRow).id ≠
      "SB" ∧
    acceptTransferSession "SB" "TA" "bob"
        ⟨[], [⟨"SA", "TA", "alice", "bob", SessionStatus.pending, 100⟩,
              ⟨"SB", "TB", "carol", "dan", SessionStatus.completed, 100⟩], []⟩ =
      (Except.error ⟨500, "Failed to accept transfer session"⟩,
       ⟨[], [⟨"SA", "TA", "alice", "bob", SessionStatus.pending, 100⟩,
             ⟨"SB", "TB", "carol", "dan", SessionStatus.completed, 100⟩], []⟩) :=
  ⟨by decide, by decide,
   (c9_mismatch_unreachable 0 "SB" "TA" "bob"
      ⟨[], [⟨"SA", "TA", "alice", "bob", SessionStatus.pending, 100⟩,
            ⟨"SB", "TB", "carol", "dan", SessionStatus.completed, 100⟩], []⟩
      ⟨"SA", "TA", "alice", "bob", SessionStatus.pending, 100⟩
      (by decide) (by decide)).1⟩

/-- C10 — cancel never returns success, once or twice: every call answers the
constant 500 internal error and leaves the store untouched, so the second call
on the unchanged store answers the same; a `cancelled` session's stored status
is only preserved because nothing is ever written. -/
theorem c10_cancel_crash (sessionId tok u : String) (db : DB) :
    cancelTransferSession sessionId tok u db =
      (Except.error ⟨500, "Failed to cancel transfer session"⟩, db) ∧
    cancelTransferSession sessionId tok u
        (cancelTransferSession sessionId tok u db).2 =
      (Except.error ⟨500, "Failed to cancel transfer session"⟩, db) ∧
    (∀ j, sessionById (cancelTransferSession sessionId tok u
        (cancelTransferSession sessionId tok u db).2).2 j = sessionById db j) :=
  ⟨rfl, rfl, fun _ => rfl⟩

end DriveTransfer
